import Mathlib

/-!
Shallow embedding of `src/caller.cpp`: a sample program that connects to an
EDL electrophysiology device, configures it, arms a triangular protocol,
streams sampled data to a binary file, and disconnects with bounded retry.

The EDL device session itself (header `edl.h`) is the external collaborator;
its responses are modelled as an oracle (`EdlModel`): one response per
operation invocation, indexed by loop iteration where the code calls the
operation inside a loop.  Sample values written to the file are uninterpreted
raw 32-bit floats, modelled as `Nat` bit patterns; `FLOAT_SIZE` (4 bytes)
converts value counts to byte counts.  Wall-clock sleeps (`Sleep`) have no
observable effect in this model and are omitted.
-/

/-- Error codes returned by EDL methods (`EdlErrorCode_t`).  The caller code
distinguishes `EdlSuccess`, `EdlDeviceNotConnectedError` and
`EdlNotEnoughAvailableDataError`; every other failure code is collapsed into
`EdlGenericError`, which the caller only ever compares against `EdlSuccess`. -/
inductive EdlErrorCode where
  | EdlSuccess
  | EdlDeviceNotConnectedError
  | EdlNotEnoughAvailableDataError
  | EdlGenericError
deriving DecidableEq, Repr

open EdlErrorCode

/-- Device status snapshot (`EdlDeviceStatus_t`): buffered packet count plus
two advisory flags. -/
structure EdlDeviceStatus where
  availableDataPackets : Nat
  bufferOverflowFlag : Bool
  lostDataFlag : Bool
deriving DecidableEq, Repr

/-- `#define MINIMUM_DATA_PACKETS_TO_READ 10` (caller.cpp line 13). -/
def MINIMUM_DATA_PACKETS_TO_READ : Nat := 10

/-- Size in bytes of one single-precision value written by `fwrite(..., sizeof(float), 1, f)`. -/
def FLOAT_SIZE : Nat := 4

/-- Oracle for the EDL session as seen by `readAndSaveSomeData`:
the result of `purgeData`, and per loop iteration `c` the response of
`getDeviceStatus` and (if issued) of `readData` — result code, number of
packets actually read (`readPacketsNum`), and the data vector. -/
structure EdlModel where
  purgeResult : EdlErrorCode
  statusResults : Nat → EdlErrorCode × EdlDeviceStatus
  readResults : Nat → EdlErrorCode × Nat × List Nat

/-- Observable state accumulated by the acquisition loop: samples written to
the sink (in order), the sequence of requested read sizes, and how many times
`fclose` has been called inside `readAndSaveSomeData`. -/
structure LoopState where
  sink : List Nat
  reads : List Nat
  fcloseCount : Nat
deriving DecidableEq, Repr

/-- Which exit path `readAndSaveSomeData` took. -/
inductive ExitKind where
  | purgeFailure
  | statusFailure
  | notConnectedExit
  | atFailure
  | normalExit
deriving DecidableEq, Repr

/-- Result of `readAndSaveSomeData`: final observable state, the exit path
taken, and the returned error code (`none` models the uncaught
`std::out_of_range` exception from `data.at`). -/
structure AcqResult where
  final : LoopState
  exit : ExitKind
  retval : Option EdlErrorCode
deriving DecidableEq, Repr

/-- Indices accessed by the nested persist loops (caller.cpp lines 163-167):
for `readPacketsIdx < n` and `channelIdx < ch`, index
`readPacketsIdx * ch + channelIdx`, in program order. -/
def frameIndices (n ch : Nat) : List Nat :=
  (List.range n).flatMap (fun readPacketsIdx =>
    (List.range ch).map (fun channelIdx => readPacketsIdx * ch + channelIdx))

/-- Sequentially perform the checked accesses `data.at i` for each index in
`is`; `none` models the `std::out_of_range` exception. -/
def writeIndices (data : List Nat) : List Nat → Option (List Nat)
  | [] => some []
  | i :: is =>
    match data.get? i with
    | none => none
    | some v =>
      match writeIndices data is with
      | none => none
      | some vs => some (v :: vs)

/-- Values written to the sink by the persist loops for one read of
`readPacketsNum = n` packets with `EDL_CHANNEL_NUM = ch` channels, or `none`
if a checked access is out of range. -/
def writeFrames (data : List Nat) (n ch : Nat) : Option (List Nat) :=
  writeIndices data (frameIndices n ch)

/-- Outcome of one iteration of the poll-read loop. -/
inductive StepOut where
  | cont (res : EdlErrorCode) (s : LoopState)
  | halt (r : AcqResult)
deriving Repr

/-- One iteration of the `for (c = 0; c < 1e3; c++)` loop body of
`readAndSaveSomeData` (caller.cpp lines 124-175), with `EDL_CHANNEL_NUM = ch`:
query status (failure returns), ignore the advisory flags (they only print),
and if at least `MINIMUM_DATA_PACKETS_TO_READ` packets are available, read
them; not-connected closes the file and returns, otherwise the returned
packets are persisted (insufficient-data only prints). -/
def loopBody (ch : Nat) (edl : EdlModel) (c : Nat) (s : LoopState) : StepOut :=
  let stRes := (edl.statusResults c).1
  let status := (edl.statusResults c).2
  if stRes ≠ EdlSuccess then
    .halt { final := s, exit := .statusFailure, retval := some stRes }
  else if MINIMUM_DATA_PACKETS_TO_READ ≤ status.availableDataPackets then
    let rd := edl.readResults c
    let rdRes := rd.1
    let readPacketsNum := rd.2.1
    let data := rd.2.2
    let s1 : LoopState := { s with reads := s.reads ++ [status.availableDataPackets] }
    if rdRes = EdlDeviceNotConnectedError then
      .halt { final := { s1 with fcloseCount := s1.fcloseCount + 1 },
              exit := .notConnectedExit, retval := some rdRes }
    else
      match writeFrames data readPacketsNum ch with
      | none => .halt { final := s1, exit := .atFailure, retval := none }
      | some ws => .cont rdRes { s1 with sink := s1.sink ++ ws }
  else
    .cont stRes s

/-- Run the poll-read loop for `fuel` more iterations starting at iteration
`c`, with `res` the value the C++ variable `res` holds on entry; when the
budget is exhausted the last assigned `res` is returned (caller.cpp line 178). -/
def loopFrom (ch : Nat) (edl : EdlModel) : Nat → Nat → EdlErrorCode → LoopState → AcqResult
  | 0, _, res, s => { final := s, exit := .normalExit, retval := some res }
  | fuel + 1, c, _, s =>
    match loopBody ch edl c s with
    | .halt r => r
    | .cont res' s' => loopFrom ch edl fuel (c + 1) res' s'

/-- State at entry of `readAndSaveSomeData`: empty sink, no reads, no fclose. -/
def initLoopState : LoopState := { sink := [], reads := [], fcloseCount := 0 }

/-- `readAndSaveSomeData` (caller.cpp lines 95-179): purge (failure returns
its code without touching the sink), then the 1000-iteration poll-read loop. -/
def readAndSaveSomeData (ch : Nat) (edl : EdlModel) : AcqResult :=
  if edl.purgeResult ≠ EdlSuccess then
    { final := initLoopState, exit := .purgeFailure, retval := some edl.purgeResult }
  else
    loopFrom ch edl 1000 0 edl.purgeResult initLoopState

/-- Number of times `main` itself calls `fclose` (caller.cpp lines 236-242):
only when `readAndSaveSomeData` returned `EdlSuccess`; on a non-success
return `main` exits with `-1` before reaching its `fclose`, and an uncaught
exception never reaches it either. -/
def mainFcloseCount (r : AcqResult) : Nat :=
  match r.retval with
  | some res => if res = EdlSuccess then 1 else 0
  | none => 0

/-- Total number of `fclose` calls on the data file across
`readAndSaveSomeData` and `main`. -/
def totalFcloseCount (ch : Nat) (edl : EdlModel) : Nat :=
  (readAndSaveSomeData ch edl).final.fcloseCount +
    mainFcloseCount (readAndSaveSomeData ch edl)

/-- The disconnect retry loop `while (c++ < 1e3)` (caller.cpp lines 250-260):
`fuel` remaining attempts, `k` attempts made so far, `res` the current value
of the C++ `res` variable.  Returns the final `res` and the total number of
`disconnectDevice` calls made. -/
def disconnectFrom (d : Nat → EdlErrorCode) : Nat → Nat → EdlErrorCode → EdlErrorCode × Nat
  | 0, k, res => (res, k)
  | fuel + 1, k, _ =>
    if d k = EdlSuccess then (EdlSuccess, k + 1)
    else disconnectFrom d fuel (k + 1) (d k)

/-- The full disconnect phase of `main`: up to 1000 attempts, stopping on the
first success. -/
def disconnectRetry (d : Nat → EdlErrorCode) : EdlErrorCode × Nat :=
  disconnectFrom d 1000 0 EdlSuccess

/-- Oracle for a whole run of `main`: results of `detectDevices`,
`connectDevice`, the acquisition oracle, and per-attempt results of
`disconnectDevice`. -/
structure MainModel where
  detectResult : EdlErrorCode
  connectResult : EdlErrorCode
  acq : EdlModel
  disconnect : Nat → EdlErrorCode

/-- Exit status of `main` (caller.cpp lines 184-269) with
`EDL_CHANNEL_NUM = ch`: `-1` on detect/connect failure, on a non-success
return from `readAndSaveSomeData`, or on disconnect-budget exhaustion;
`0` otherwise; `none` models abnormal termination by the uncaught
`std::out_of_range` exception. -/
def mainExit (ch : Nat) (m : MainModel) : Option Int :=
  if m.detectResult ≠ EdlSuccess then some (-1)
  else if m.connectResult ≠ EdlSuccess then some (-1)
  else
    match (readAndSaveSomeData ch m.acq).retval with
    | none => none
    | some res =>
      if res ≠ EdlSuccess then some (-1)
      else if (disconnectRetry m.disconnect).1 ≠ EdlSuccess then some (-1)
      else some 0

/-- Command identifiers used by the caller (`EdlCommandId_t` values from `edl.h`). -/
inductive EdlCommandId where
  | EdlCommandSamplingRate
  | EdlCommandRange
  | EdlCommandFinalBandwidth
  | EdlCommandMainTrial
  | EdlCommandVhold
  | EdlCommandVamp
  | EdlCommandTPeriod
  | EdlCommandApplyProtocol
  | EdlCommandCompAll
deriving DecidableEq, Repr

open EdlCommandId

/-- The `setCommand` calls issued by `configureWorkingModality`
(caller.cpp lines 18-33), in program order, with their apply flags.  Command
payloads (`EdlCommandStruct_t` fields) are out of scope: only the identifier
and the apply flag determine stacking and flushing. -/
def configureWorkingModality_calls : List (EdlCommandId × Bool) :=
  [(EdlCommandSamplingRate, false),
   (EdlCommandRange, false),
   (EdlCommandFinalBandwidth, true)]

/-- The `setCommand` calls issued by `setTriangularProtocol`
(caller.cpp lines 68-90), in program order, with their apply flags. -/
def setTriangularProtocol_calls : List (EdlCommandId × Bool) :=
  [(EdlCommandMainTrial, false),
   (EdlCommandVhold, false),
   (EdlCommandVamp, false),
   (EdlCommandTPeriod, false),
   (EdlCommandApplyProtocol, true)]

/-- Modelled from the spec: the stack/apply semantics of `EDL::setCommand`
(`edl.h` is the external collaborator and not in the repository).  Per §4.1,
a call with apply flag `false` appends the request to the pending batch
without contacting the device; a call with apply flag `true` appends and then
flushes the entire pending batch to the device session in accumulation order
and clears it.  Returns the list of flushed batches the device observes, in
order. -/
def flushSteps : List (EdlCommandId × Bool) → List EdlCommandId → List (List EdlCommandId)
  | [], _ => []
  | (cmd, applyFlag) :: rest, pending =>
    if applyFlag then (pending ++ [cmd]) :: flushSteps rest []
    else flushSteps rest (pending ++ [cmd])

/-! ### Helper lemmas about the persist loops -/

theorem writeIndices_append (data l₁ l₂ : List Nat) :
    writeIndices data (l₁ ++ l₂) =
      (writeIndices data l₁).bind fun a => (writeIndices data l₂).map fun b => a ++ b := by
  induction l₁ with
  | nil =>
      simp only [List.nil_append, writeIndices]
      cases writeIndices data l₂ <;> simp
  | cons i is ih =>
      simp only [List.cons_append, writeIndices]
      cases data.get? i with
      | none => rfl
      | some v =>
        dsimp only
        simp only [List.append_eq]
        rw [ih]
        cases writeIndices data is with
        | none => rfl
        | some a =>
          cases writeIndices data l₂ <;> simp

theorem writeIndices_range (data : List Nat) (m : Nat) (h : m ≤ data.length) :
    writeIndices data (List.range m) = some (data.take m) := by
  induction m with
  | zero => simp [writeIndices]
  | succ m ih =>
      rw [List.range_succ, writeIndices_append, ih (Nat.le_of_succ_le h)]
      have hm : m < data.length := h
      have hv := List.get?_eq_get hm
      have hw : writeIndices data [m] = some [data.get ⟨m, hm⟩] := by
        rw [writeIndices, hv, writeIndices]
      rw [hw]
      simp only [Option.some_bind, Option.map_some]
      rw [List.take_succ, List.getElem?_eq_getElem hm]
      simp [List.get_eq_getElem]

theorem frameIndices_eq_range (n ch : Nat) :
    frameIndices n ch = List.range (n * ch) := by
  induction n with
  | zero => simp [frameIndices]
  | succ n ih =>
      rw [frameIndices, List.range_succ, List.flatMap_append]
      rw [frameIndices] at ih
      rw [ih, Nat.succ_mul, List.range_add]
      simp [Nat.add_comm]

theorem writeFrames_eq_take (data : List Nat) (n ch : Nat) (h : n * ch ≤ data.length) :
    writeFrames data n ch = some (data.take (n * ch)) := by
  rw [writeFrames, frameIndices_eq_range, writeIndices_range data _ h]

/-! ### Step lemmas for the poll-read loop body -/

theorem loopBody_read (ch : Nat) (edl : EdlModel) (c : Nat) (s : LoopState)
    (k n : Nat) (bo ld : Bool) (rdRes : EdlErrorCode) (data : List Nat)
    (hst : edl.statusResults c = (EdlSuccess, ⟨k, bo, ld⟩))
    (h10 : MINIMUM_DATA_PACKETS_TO_READ ≤ k)
    (hrd : edl.readResults c = (rdRes, n, data))
    (hnc : rdRes ≠ EdlDeviceNotConnectedError)
    (hlen : n * ch ≤ data.length) :
    loopBody ch edl c s =
      .cont rdRes { sink := s.sink ++ data.take (n * ch),
                    reads := s.reads ++ [k],
                    fcloseCount := s.fcloseCount } := by
  simp [loopBody, hst, hrd, h10, hnc, writeFrames_eq_take data n ch hlen]

theorem loopBody_below (ch : Nat) (edl : EdlModel) (c : Nat) (s : LoopState)
    (k : Nat) (bo ld : Bool)
    (hst : edl.statusResults c = (EdlSuccess, ⟨k, bo, ld⟩))
    (h10 : k < MINIMUM_DATA_PACKETS_TO_READ) :
    loopBody ch edl c s = .cont EdlSuccess s := by
  simp [loopBody, hst, Nat.not_le.mpr h10]

theorem loopBody_statusFail (ch : Nat) (edl : EdlModel) (c : Nat) (s : LoopState)
    (hst : (edl.statusResults c).1 ≠ EdlSuccess) :
    loopBody ch edl c s =
      .halt { final := s, exit := .statusFailure, retval := some (edl.statusResults c).1 } := by
  simp [loopBody, hst]

theorem loopBody_notConnected (ch : Nat) (edl : EdlModel) (c : Nat) (s : LoopState)
    (k : Nat) (bo ld : Bool)
    (hst : edl.statusResults c = (EdlSuccess, ⟨k, bo, ld⟩))
    (h10 : MINIMUM_DATA_PACKETS_TO_READ ≤ k)
    (hnc : (edl.readResults c).1 = EdlDeviceNotConnectedError) :
    loopBody ch edl c s =
      .halt { final := { sink := s.sink, reads := s.reads ++ [k],
                         fcloseCount := s.fcloseCount + 1 },
              exit := .notConnectedExit, retval := some EdlDeviceNotConnectedError } := by
  simp [loopBody, hst, h10, hnc]

/-! ### Normal-termination return value -/

/-- Error code held by the C++ variable `res` at the end of a completed
iteration `c`: the read result if a read was issued in that iteration, the
status result otherwise. -/
def iterResult (edl : EdlModel) (c : Nat) : EdlErrorCode :=
  if MINIMUM_DATA_PACKETS_TO_READ ≤ (edl.statusResults c).2.availableDataPackets
  then (edl.readResults c).1
  else (edl.statusResults c).1

theorem loopBody_cont_res (ch : Nat) (edl : EdlModel) (c : Nat) (s s' : LoopState)
    (res' : EdlErrorCode) (h : loopBody ch edl c s = .cont res' s') :
    res' = iterResult edl c := by
  simp only [loopBody] at h
  rw [iterResult]
  split at h
  · exact absurd h (by simp)
  · split at h
    · rename_i h2
      rw [if_pos h2]
      split at h
      · exact absurd h (by simp)
      · split at h
        · exact absurd h (by simp)
        · injection h with ha hb
          exact ha.symm
    · rename_i h2
      rw [if_neg h2]
      injection h with ha hb
      exact ha.symm

theorem loopBody_halt_exit (ch : Nat) (edl : EdlModel) (c : Nat) (s : LoopState)
    (r : AcqResult) (h : loopBody ch edl c s = .halt r) :
    r.exit ≠ ExitKind.normalExit := by
  simp only [loopBody] at h
  split at h
  · injection h with ha
    rw [← ha]
    simp
  · split at h
    · split at h
      · injection h with ha
        rw [← ha]
        simp
      · split at h
        · injection h with ha
          rw [← ha]
          simp
        · exact absurd h (by simp)
    · exact absurd h (by simp)

theorem loopFrom_normal_retval (ch : Nat) (edl : EdlModel) :
    ∀ (fuel c : Nat) (res : EdlErrorCode) (s : LoopState),
      (loopFrom ch edl (fuel + 1) c res s).exit = ExitKind.normalExit →
      (loopFrom ch edl (fuel + 1) c res s).retval = some (iterResult edl (c + fuel)) := by
  intro fuel
  induction fuel with
  | zero =>
      intro c res s h
      rw [loopFrom] at h ⊢
      cases hb : loopBody ch edl c s with
      | halt r =>
          rw [hb] at h
          exact absurd h (loopBody_halt_exit ch edl c s r hb)
      | cont res' s' =>
          rw [hb] at h
          dsimp only [loopFrom] at h ⊢
          rw [loopBody_cont_res ch edl c s s' res' hb]
          rfl
  | succ fuel ih =>
      intro c res s h
      rw [loopFrom] at h ⊢
      cases hb : loopBody ch edl c s with
      | halt r =>
          rw [hb] at h
          exact absurd h (loopBody_halt_exit ch edl c s r hb)
      | cont res' s' =>
          rw [hb] at h
          dsimp only at h ⊢
          have heq : c + 1 + fuel = c + (fuel + 1) := by omega
          have := ih (c + 1) res' s' h
          rw [heq] at this
          exact this

/-! ### Advisory flags do not influence the loop -/

theorem loopBody_flag_indep (ch : Nat) (edl1 edl2 : EdlModel) (c : Nat) (s : LoopState)
    (h1 : (edl1.statusResults c).1 = (edl2.statusResults c).1)
    (h2 : (edl1.statusResults c).2.availableDataPackets =
          (edl2.statusResults c).2.availableDataPackets)
    (h3 : edl1.readResults c = edl2.readResults c) :
    loopBody ch edl1 c s = loopBody ch edl2 c s := by
  simp only [loopBody, h1, h2, h3]

theorem loopFrom_flag_indep (ch : Nat) (edl1 edl2 : EdlModel)
    (hst1 : ∀ c, (edl1.statusResults c).1 = (edl2.statusResults c).1)
    (hst2 : ∀ c, (edl1.statusResults c).2.availableDataPackets =
                 (edl2.statusResults c).2.availableDataPackets)
    (hrd : ∀ c, edl1.readResults c = edl2.readResults c) :
    ∀ (fuel c : Nat) (res : EdlErrorCode) (s : LoopState),
      loopFrom ch edl1 fuel c res s = loopFrom ch edl2 fuel c res s := by
  intro fuel
  induction fuel with
  | zero => intro c res s; rfl
  | succ fuel ih =>
      intro c res s
      rw [loopFrom, loopFrom,
        loopBody_flag_indep ch edl1 edl2 c s (hst1 c) (hst2 c) (hrd c)]
      cases loopBody ch edl2 c s with
      | halt r => rfl
      | cont res' s' => exact ih (c + 1) res' s'

/-! ### Disconnect retry bounds -/

theorem disconnectFrom_success (d : Nat → EdlErrorCode) :
    ∀ (j fuel k : Nat) (res : EdlErrorCode),
      (∀ i, i < j → d (k + i) ≠ EdlSuccess) → d (k + j) = EdlSuccess → j < fuel →
      disconnectFrom d fuel k res = (EdlSuccess, k + j + 1) := by
  intro j
  induction j with
  | zero =>
      intro fuel k res hfail hsucc hlt
      cases fuel with
      | zero => omega
      | succ fuel =>
          rw [disconnectFrom, if_pos (by simpa using hsucc)]
  | succ j ih =>
      intro fuel k res hfail hsucc hlt
      cases fuel with
      | zero => omega
      | succ fuel =>
          have h0 : d k ≠ EdlSuccess := by simpa using hfail 0 (Nat.succ_pos j)
          rw [disconnectFrom, if_neg h0]
          have hfail' : ∀ i, i < j → d (k + 1 + i) ≠ EdlSuccess := by
            intro i hi
            have := hfail (i + 1) (Nat.succ_lt_succ hi)
            rwa [show k + (i + 1) = k + 1 + i by omega] at this
          have hsucc' : d (k + 1 + j) = EdlSuccess := by
            rwa [show k + (j + 1) = k + 1 + j by omega] at hsucc
          have := ih fuel (k + 1) (d k) hfail' hsucc' (by omega)
          rw [this, show k + 1 + j + 1 = k + (j + 1) + 1 by omega]

theorem disconnectFrom_allFail (d : Nat → EdlErrorCode) :
    ∀ (fuel k : Nat) (res : EdlErrorCode),
      (∀ i, i < fuel + 1 → d (k + i) ≠ EdlSuccess) →
      (disconnectFrom d (fuel + 1) k res).1 ≠ EdlSuccess ∧
      (disconnectFrom d (fuel + 1) k res).2 = k + (fuel + 1) := by
  intro fuel
  induction fuel with
  | zero =>
      intro k res h
      have h0 : d k ≠ EdlSuccess := by simpa using h 0 Nat.one_pos
      rw [disconnectFrom, if_neg h0, disconnectFrom]
      exact ⟨h0, rfl⟩
  | succ fuel ih =>
      intro k res h
      have h0 : d k ≠ EdlSuccess := by simpa using h 0 (Nat.succ_pos _)
      rw [disconnectFrom, if_neg h0]
      have h' : ∀ i, i < fuel + 1 → d (k + 1 + i) ≠ EdlSuccess := by
        intro i hi
        have := h (i + 1) (Nat.succ_lt_succ hi)
        rwa [show k + (i + 1) = k + 1 + i by omega] at this
      have := ih (k + 1) (d k) h'
      exact ⟨this.1, by rw [this.2]; omega⟩

theorem disconnectRetry_allFail (d : Nat → EdlErrorCode)
    (h : ∀ i, i < 1000 → d i ≠ EdlSuccess) :
    (disconnectRetry d).1 ≠ EdlSuccess ∧ (disconnectRetry d).2 = 1000 := by
  have h1000 : (1000 : Nat) = 999 + 1 := rfl
  rw [disconnectRetry, h1000]
  have := disconnectFrom_allFail d 999 0 EdlSuccess
    (by intro i hi; simpa using h i (by omega))
  exact ⟨this.1, by rw [this.2]⟩

/-! ### Concrete device oracles used as counterexamples and witnesses -/

/-- Oracle where every poll until iteration 998 reports no data, and the poll
of the final iteration 999 reports 10 packets whose read comes back short
(insufficient data, 5 of 10 packets, 40 floats at 8 channels). -/
def finalPartialReadModel : EdlModel :=
  { purgeResult := EdlSuccess,
    statusResults := fun c =>
      if c = 999 then (EdlSuccess, ⟨10, false, false⟩)
      else (EdlSuccess, ⟨0, false, false⟩),
    readResults := fun _ => (EdlNotEnoughAvailableDataError, 5, List.range 40) }

/-- Whole-run oracle around `finalPartialReadModel`: discovery, connection and
every disconnect attempt succeed. -/
def finalPartialReadMain : MainModel :=
  { detectResult := EdlSuccess, connectResult := EdlSuccess,
    acq := finalPartialReadModel, disconnect := fun _ => EdlSuccess }

/-- Oracle whose first `getDeviceStatus` call fails (purge succeeded). -/
def statusFailModel : EdlModel :=
  { purgeResult := EdlSuccess,
    statusResults := fun _ => (EdlGenericError, ⟨0, false, false⟩),
    readResults := fun _ => (EdlSuccess, 0, []) }

/-- Oracle reporting 15 available packets and a full successful read of
15 packets (120 floats at 8 channels). -/
def fullReadModel : EdlModel :=
  { purgeResult := EdlSuccess,
    statusResults := fun _ => (EdlSuccess, ⟨15, false, false⟩),
    readResults := fun _ => (EdlSuccess, 15, List.range 120) }

/-- Oracle reporting 12 available packets with a short read of 5 packets
(40 floats at 8 channels). -/
def partialReadModel : EdlModel :=
  { purgeResult := EdlSuccess,
    statusResults := fun _ => (EdlSuccess, ⟨12, false, false⟩),
    readResults := fun _ => (EdlNotEnoughAvailableDataError, 5, List.range 40) }

/-- Oracle reporting 12 available packets whose read reports not-connected. -/
def notConnModel : EdlModel :=
  { purgeResult := EdlSuccess,
    statusResults := fun _ => (EdlSuccess, ⟨12, false, false⟩),
    readResults := fun _ => (EdlDeviceNotConnectedError, 0, []) }

/-- Disconnect stub failing the first 3 attempts, then succeeding. -/
def disconnectAfter3 : Nat → EdlErrorCode :=
  fun i => if i < 3 then EdlGenericError else EdlSuccess

/-- Disconnect stub that never succeeds. -/
def disconnectNever : Nat → EdlErrorCode := fun _ => EdlGenericError

/-- Shared read oracle for the flag-independence witness: every read returns
20 packets (160 floats at 8 channels). -/
def flagReads : Nat → EdlErrorCode × Nat × List Nat :=
  fun _ => (EdlSuccess, 20, List.range 160)

/-- Oracle whose first poll reports 20 packets with `bufferOverflowFlag` and
`lostDataFlag` set. -/
def edlFlagSet : EdlModel :=
  { purgeResult := EdlSuccess,
    statusResults := fun c =>
      (EdlSuccess, ⟨if c = 0 then 20 else 0, decide (c = 0), decide (c = 0)⟩),
    readResults := flagReads }

/-- Same oracle as `edlFlagSet` except both advisory flags are always clear. -/
def edlFlagClear : EdlModel :=
  { purgeResult := EdlSuccess,
    statusResults := fun c =>
      (EdlSuccess, ⟨if c = 0 then 20 else 0, false, false⟩),
    readResults := flagReads }

/-! ### Claims -/

set_option maxRecDepth 100000 in
/-- C1, counterexample: a run that exhausts the full 1000-iteration budget and
performs an insufficient-data read in the final iteration returns the read's
error code, not the result of the last device-status query (which was
`EdlSuccess`). -/
theorem claimC1_counterexample :
    (readAndSaveSomeData 8 finalPartialReadModel).exit = ExitKind.normalExit ∧
    (finalPartialReadModel.statusResults 999).1 = EdlSuccess ∧
    (readAndSaveSomeData 8 finalPartialReadModel).retval =
      some EdlNotEnoughAvailableDataError ∧
    EdlNotEnoughAvailableDataError ≠ EdlSuccess :=
  ⟨by decide, by decide, by decide, by decide⟩

/-- C1, amended: when the acquisition loop runs its full iteration budget, the
code returned to the caller is the result of the last operation of the final
iteration 999: the read result if that iteration issued a read (at least
`MINIMUM_DATA_PACKETS_TO_READ` packets were available), the status-query
result otherwise. -/
theorem claimC1_amended (ch : Nat) (edl : EdlModel)
    (h : (readAndSaveSomeData ch edl).exit = ExitKind.normalExit) :
    (readAndSaveSomeData ch edl).retval =
      some (if MINIMUM_DATA_PACKETS_TO_READ ≤
              (edl.statusResults 999).2.availableDataPackets
            then (edl.readResults 999).1
            else (edl.statusResults 999).1) := by
  rw [readAndSaveSomeData] at h ⊢
  by_cases hp : edl.purgeResult ≠ EdlSuccess
  · rw [if_pos hp] at h
    exact absurd h (by simp)
  · rw [if_neg hp] at h ⊢
    have h1000 : (1000 : Nat) = 999 + 1 := rfl
    rw [h1000] at h ⊢
    have := loopFrom_normal_retval ch edl 999 0 edl.purgeResult initLoopState h
    simpa [iterResult] using this

set_option maxRecDepth 100000 in
/-- C1, witness for the amended claim at the counterexample oracle. -/
theorem claimC1_witness :
    (readAndSaveSomeData 8 finalPartialReadModel).exit = ExitKind.normalExit ∧
    (readAndSaveSomeData 8 finalPartialReadModel).retval =
      some (if MINIMUM_DATA_PACKETS_TO_READ ≤
              (finalPartialReadModel.statusResults 999).2.availableDataPackets
            then (finalPartialReadModel.readResults 999).1
            else (finalPartialReadModel.statusResults 999).1) :=
  ⟨by decide, claimC1_amended 8 finalPartialReadModel (by decide)⟩

set_option maxRecDepth 100000 in
/-- C2, counterexample: a run in which discovery, connection and every
disconnect attempt succeed and the only non-success condition is a non-fatal
insufficient-data read — occurring in the final loop iteration — exits with
`-1`, not `0`. -/
theorem claimC2_counterexample :
    mainExit 8 finalPartialReadMain = some (-1) ∧
    finalPartialReadMain.detectResult = EdlSuccess ∧
    finalPartialReadMain.connectResult = EdlSuccess ∧
    (readAndSaveSomeData 8 finalPartialReadMain.acq).exit = ExitKind.normalExit ∧
    (finalPartialReadMain.acq.readResults 999).1 = EdlNotEnoughAvailableDataError ∧
    finalPartialReadMain.disconnect 0 = EdlSuccess ∧
    (some (-1) : Option Int) ≠ some 0 :=
  ⟨by decide, by decide, by decide, by decide, by decide, by decide, by decide⟩

/-- C2, amended: the exit status is `0` exactly when discovery succeeds,
connection succeeds, `readAndSaveSomeData` returns `EdlSuccess`, and a
disconnect attempt succeeds within the budget; any other return code from the
acquisition step — including the non-fatal insufficient-data code when it is
what the final loop iteration's read returned — yields a non-zero exit. -/
theorem claimC2_amended (ch : Nat) (m : MainModel) :
    mainExit ch m = some 0 ↔
      m.detectResult = EdlSuccess ∧ m.connectResult = EdlSuccess ∧
      (readAndSaveSomeData ch m.acq).retval = some EdlSuccess ∧
      (disconnectRetry m.disconnect).1 = EdlSuccess := by
  rw [mainExit]
  by_cases h1 : m.detectResult = EdlSuccess
  · by_cases h2 : m.connectResult = EdlSuccess
    · cases hr : (readAndSaveSomeData ch m.acq).retval with
      | none => simp [h1, h2, hr]
      | some res =>
          by_cases h3 : res = EdlSuccess
          · subst h3
            by_cases h4 : (disconnectRetry m.disconnect).1 = EdlSuccess
            · simp [h1, h2, hr, h4]
            · simp [h1, h2, hr, h4]
          · simp [h1, h2, hr, h3]
    · simp [h1, h2]
  · simp [h1]

/-- C3, evaluation at the failing input: when the first device-status query
fails (purge succeeded), `readAndSaveSomeData` returns without calling
`fclose`, and `main`, seeing a non-success code, exits without reaching its
own `fclose`: the sink is closed zero times, not exactly once. -/
theorem claimC3_bug_eval :
    (readAndSaveSomeData 8 statusFailModel).exit = ExitKind.statusFailure ∧
    (readAndSaveSomeData 8 statusFailModel).retval = some EdlGenericError ∧
    totalFcloseCount 8 statusFailModel = 0 :=
  ⟨by decide, by decide, by decide⟩

/-- C4: in a loop iteration whose status query succeeds and reports
`availableDataPackets = k ≥ MINIMUM_DATA_PACKETS_TO_READ` and whose read
returns success with `actualCount = k`, the iteration continues and appends
exactly `k * ch` single-precision values — `FLOAT_SIZE * (k * ch)` bytes —
to the sink (assuming, per the device contract, the returned vector holds at
least `k * ch` values). -/
theorem claimC4_full_read_accounting (ch : Nat) (edl : EdlModel) (c : Nat)
    (s : LoopState) (k : Nat) (bo ld : Bool) (data : List Nat)
    (hst : edl.statusResults c = (EdlSuccess, ⟨k, bo, ld⟩))
    (h10 : MINIMUM_DATA_PACKETS_TO_READ ≤ k)
    (hrd : edl.readResults c = (EdlSuccess, k, data))
    (hlen : k * ch ≤ data.length) :
    loopBody ch edl c s =
      .cont EdlSuccess { sink := s.sink ++ data.take (k * ch),
                         reads := s.reads ++ [k],
                         fcloseCount := s.fcloseCount } ∧
    (s.sink ++ data.take (k * ch)).length = s.sink.length + k * ch ∧
    FLOAT_SIZE * (s.sink ++ data.take (k * ch)).length =
      FLOAT_SIZE * s.sink.length + FLOAT_SIZE * (k * ch) := by
  have hb := loopBody_read ch edl c s k k bo ld EdlSuccess data hst h10 hrd
    (by simp) hlen
  have hlen2 : (s.sink ++ data.take (k * ch)).length = s.sink.length + k * ch := by
    simp [List.length_take, Nat.min_eq_left hlen]
  exact ⟨hb, hlen2, by rw [hlen2, Nat.mul_add]⟩

/-- C4, witness: 15 available packets, full read of 15 packets with 8
channels, starting from the initial state — the sink grows by 120 values,
which is 480 bytes. -/
theorem claimC4_witness :
    loopBody 8 fullReadModel 0 initLoopState =
      .cont EdlSuccess { sink := initLoopState.sink ++ (List.range 120).take (15 * 8),
                         reads := initLoopState.reads ++ [15],
                         fcloseCount := initLoopState.fcloseCount } ∧
    (initLoopState.sink ++ (List.range 120).take (15 * 8)).length =
      initLoopState.sink.length + 15 * 8 ∧
    FLOAT_SIZE * (initLoopState.sink ++ (List.range 120).take (15 * 8)).length =
      FLOAT_SIZE * initLoopState.sink.length + FLOAT_SIZE * (15 * 8) ∧
    FLOAT_SIZE * (15 * 8) = 480 := by
  have h := claimC4_full_read_accounting 8 fullReadModel 0 initLoopState 15 false false
    (List.range 120) rfl (by decide) rfl (by simp)
  exact ⟨h.1, h.2.1, h.2.2, by decide⟩

/-- C5: in a loop iteration whose read reports insufficient data with
`actualCount = m` below the requested `k`, the iteration appends exactly
`m * ch` values to the sink and continues to the next poll iteration — no
abort: the step result is a continuation carrying the non-fatal code. -/
theorem claimC5_partial_read_tolerance (ch : Nat) (edl : EdlModel) (c : Nat)
    (s : LoopState) (k m : Nat) (bo ld : Bool) (data : List Nat)
    (hst : edl.statusResults c = (EdlSuccess, ⟨k, bo, ld⟩))
    (h10 : MINIMUM_DATA_PACKETS_TO_READ ≤ k)
    (hrd : edl.readResults c = (EdlNotEnoughAvailableDataError, m, data))
    (hm : m < k)
    (hlen : m * ch ≤ data.length) :
    loopBody ch edl c s =
      .cont EdlNotEnoughAvailableDataError
        { sink := s.sink ++ data.take (m * ch),
          reads := s.reads ++ [k],
          fcloseCount := s.fcloseCount } ∧
    (s.sink ++ data.take (m * ch)).length = s.sink.length + m * ch := by
  have hb := loopBody_read ch edl c s k m bo ld EdlNotEnoughAvailableDataError data
    hst h10 hrd (by simp) hlen
  exact ⟨hb, by simp [List.length_take, Nat.min_eq_left hlen]⟩

/-- C5, witness: 12 packets reported, short read of 5 packets at 8 channels
from the initial state — 40 values are appended and the loop continues. -/
theorem claimC5_witness :
    loopBody 8 partialReadModel 0 initLoopState =
      .cont EdlNotEnoughAvailableDataError
        { sink := initLoopState.sink ++ (List.range 40).take (5 * 8),
          reads := initLoopState.reads ++ [12],
          fcloseCount := initLoopState.fcloseCount } ∧
    (initLoopState.sink ++ (List.range 40).take (5 * 8)).length =
      initLoopState.sink.length + 5 * 8 := by
  exact claimC5_partial_read_tolerance 8 partialReadModel 0 initLoopState 12 5
    false false (List.range 40) rfl (by decide) rfl (by decide) (by simp)

/-- C6: if the read of iteration `c` reports not-connected, the loop
terminates at once no matter how much iteration budget remains: the sink
receives no values from that read or any later iteration, `fclose` is called
exactly once (the acquisition-side count goes from 0 to 1 and `main` does not
close again, since the returned code is not `EdlSuccess`), and the
not-connected code is the value returned to the caller. -/
theorem claimC6_fatal_read_short_circuit (ch : Nat) (edl : EdlModel)
    (c fuel : Nat) (res : EdlErrorCode) (s : LoopState) (k : Nat) (bo ld : Bool)
    (hst : edl.statusResults c = (EdlSuccess, ⟨k, bo, ld⟩))
    (h10 : MINIMUM_DATA_PACKETS_TO_READ ≤ k)
    (hnc : (edl.readResults c).1 = EdlDeviceNotConnectedError)
    (hf : s.fcloseCount = 0) :
    loopFrom ch edl (fuel + 1) c res s =
      { final := { sink := s.sink, reads := s.reads ++ [k], fcloseCount := 1 },
        exit := .notConnectedExit,
        retval := some EdlDeviceNotConnectedError } ∧
    mainFcloseCount (loopFrom ch edl (fuel + 1) c res s) = 0 := by
  have hb : loopFrom ch edl (fuel + 1) c res s =
      { final := { sink := s.sink, reads := s.reads ++ [k], fcloseCount := 1 },
        exit := .notConnectedExit,
        retval := some EdlDeviceNotConnectedError } := by
    rw [loopFrom, loopBody_notConnected ch edl c s k bo ld hst h10 hnc, hf]
  exact ⟨hb, by rw [hb]; rfl⟩

/-- C6, witness: 12 packets reported at iteration 0, read reports
not-connected, 999 iterations of budget remain — the run ends immediately
with an untouched sink and one `fclose`. -/
theorem claimC6_witness :
    loopFrom 8 notConnModel (999 + 1) 0 EdlSuccess initLoopState =
      { final := { sink := initLoopState.sink, reads := initLoopState.reads ++ [12],
                   fcloseCount := 1 },
        exit := .notConnectedExit,
        retval := some EdlDeviceNotConnectedError } ∧
    mainFcloseCount (loopFrom 8 notConnModel (999 + 1) 0 EdlSuccess initLoopState) = 0 := by
  exact claimC6_fatal_read_short_circuit 8 notConnModel 0 999 EdlSuccess
    initLoopState 12 false false rfl (by decide) rfl rfl

/-- C7: if the disconnect stub fails the first `j` attempts and succeeds on
attempt `j` (0-based) with `j < 1000`, the retry loop stops successfully after
exactly `j + 1` calls; if every attempt within the budget fails, exactly 1000
calls are made and the final code is not success (so `main` exits non-zero). -/
theorem claimC7_disconnect_bound (d : Nat → EdlErrorCode) (j : Nat) :
    ((∀ i, i < j → d i ≠ EdlSuccess) → d j = EdlSuccess → j < 1000 →
      disconnectRetry d = (EdlSuccess, j + 1)) ∧
    ((∀ i, i < 1000 → d i ≠ EdlSuccess) →
      (disconnectRetry d).1 ≠ EdlSuccess ∧ (disconnectRetry d).2 = 1000) := by
  constructor
  · intro hfail hsucc hlt
    have := disconnectFrom_success d j 1000 0 EdlSuccess
      (by intro i hi; simpa using hfail i hi) (by simpa using hsucc) hlt
    simpa [disconnectRetry] using this
  · exact disconnectRetry_allFail d

/-- C7, witness: a stub failing exactly its first 3 attempts yields success
after 4 calls; a stub that never succeeds yields a non-success code after
exactly 1000 calls. -/
theorem claimC7_witness :
    disconnectRetry disconnectAfter3 = (EdlSuccess, 4) ∧
    ((disconnectRetry disconnectNever).1 ≠ EdlSuccess ∧
     (disconnectRetry disconnectNever).2 = 1000) := by
  constructor
  · exact (claimC7_disconnect_bound disconnectAfter3 3).1
      (by intro i hi; simp [disconnectAfter3, hi]) (by decide) (by decide)
  · exact (claimC7_disconnect_bound disconnectNever 0).2
      (by intro i _; simp [disconnectNever])

/-- C8: in both configuration phases every `setCommand` call except the last
carries apply flag `false` (stack only), the single applying call is the last
of the phase, and under the stack/apply contract the device session observes
exactly one flush per phase containing all of the phase's requests in program
order — no partial flush before the applying request. -/
theorem claimC8_command_ordering :
    (configureWorkingModality_calls.map Prod.snd = [false, false, true] ∧
     flushSteps configureWorkingModality_calls [] =
       [configureWorkingModality_calls.map Prod.fst]) ∧
    (setTriangularProtocol_calls.map Prod.snd = [false, false, false, false, true] ∧
     flushSteps setTriangularProtocol_calls [] =
       [setTriangularProtocol_calls.map Prod.fst]) :=
  ⟨⟨by decide, by decide⟩, ⟨by decide, by decide⟩⟩

/-- C9: the advisory status flags never influence the acquisition output —
two runs whose device oracles agree on the purge result, the status result
codes, the available-packet counts and the read responses, and may differ
arbitrarily in `bufferOverflowFlag` and `lostDataFlag`, produce identical
results: same sink contents, same sequence of read requests, same exit path
and same returned code. -/
theorem claimC9_flags_no_interference (ch : Nat) (edl1 edl2 : EdlModel)
    (hpurge : edl1.purgeResult = edl2.purgeResult)
    (hst1 : ∀ c, (edl1.statusResults c).1 = (edl2.statusResults c).1)
    (hst2 : ∀ c, (edl1.statusResults c).2.availableDataPackets =
                 (edl2.statusResults c).2.availableDataPackets)
    (hrd : ∀ c, edl1.readResults c = edl2.readResults c) :
    readAndSaveSomeData ch edl1 = readAndSaveSomeData ch edl2 := by
  rw [readAndSaveSomeData, readAndSaveSomeData, hpurge]
  by_cases hp : edl2.purgeResult ≠ EdlSuccess
  · rw [if_pos hp, if_pos hp]
  · rw [if_neg hp, if_neg hp]
    exact loopFrom_flag_indep ch edl1 edl2 hst1 hst2 hrd 1000 0 edl2.purgeResult
      initLoopState

/-- C9, witness: a run whose first poll sets both advisory flags and a run
with both flags always clear, identical otherwise, produce identical results. -/
theorem claimC9_witness :
    readAndSaveSomeData 8 edlFlagSet = readAndSaveSomeData 8 edlFlagClear :=
  claimC9_flags_no_interference 8 edlFlagSet edlFlagClear rfl
    (fun _ => rfl) (fun _ => rfl) (fun _ => rfl)

/-- C10: the persist loops access exactly the indices
`0, 1, ..., readPacketsNum * ch - 1`, in increasing order (`frameIndices` is
`List.range`), and under the device contract that the returned vector holds
at least `readPacketsNum * ch` values every checked access succeeds — the
out-of-range branch is unreachable — and exactly the first
`readPacketsNum * ch` elements, no trailing element, are written. -/
theorem claimC10_bounds (data : List Nat) (readPacketsNum ch : Nat)
    (hlen : readPacketsNum * ch ≤ data.length) :
    frameIndices readPacketsNum ch = List.range (readPacketsNum * ch) ∧
    writeFrames data readPacketsNum ch = some (data.take (readPacketsNum * ch)) ∧
    (data.take (readPacketsNum * ch)).length = readPacketsNum * ch :=
  ⟨frameIndices_eq_range readPacketsNum ch,
   writeFrames_eq_take data readPacketsNum ch hlen,
   by simp [List.length_take, Nat.min_eq_left hlen]⟩

/-- C10, witness: 2 packets of 4 channels from a 12-element vector — indices
0..7 are accessed in order and the first 8 elements are written. -/
theorem claimC10_witness :
    frameIndices 2 4 = List.range (2 * 4) ∧
    writeFrames (List.range 12) 2 4 = some ((List.range 12).take (2 * 4)) ∧
    ((List.range 12).take (2 * 4)).length = 2 * 4 :=
  claimC10_bounds (List.range 12) 2 4 (by decide)
